import Mathlib

/-!
Verification development for the StaffShield security-staffing backend.

The definitions below are a shallow embedding of the backend's route
handlers and of the relational schema they run against:

* enumerations mirror the CHECK constraints of `src/config/database.js`;
* structures mirror the table columns that the verified routes read or
  write (columns never touched by any verified property are omitted);
* each route handler becomes a pure function `DB → ... → Resp × DB`,
  with SQL statements translated clause by clause; statements executed
  between `BEGIN`/`COMMIT` roll the state back to the snapshot on any
  failure, matching the `ROLLBACK` handlers in the source;
* rows rejected by a schema constraint (`NOT NULL`, `CHECK`, `UNIQUE`)
  make the enclosing statement fail, as in PostgreSQL.

Numeric `DECIMAL` columns are embedded as `Rat`, `TIMESTAMP` columns as
`Int` (an absolute time-line), `SERIAL` keys as `Nat`.
-/

namespace StaffShield

/-- `users.user_type` (`src/config/database.js`); `admin` appears only as a
role accepted by some route guards. -/
inductive Role
  | ppo
  | agent
  | client
  | admin
deriving DecidableEq

/-- `jobs.status` CHECK constraint.  `open` is a Lean keyword, hence `open_`. -/
inductive JobStatus
  | open_
  | assigned
  | in_progress
  | completed
  | cancelled
deriving DecidableEq

/-- `jobs.urgency_level` CHECK constraint. -/
inductive Urgency
  | low
  | normal
  | high
  | urgent
deriving DecidableEq

/-- Status values for `job_assignments` rows.  The column CHECK constraint
admits only the first five; `interested` is a value that
`POST /matching/preferences` nevertheless attempts to store. -/
inductive AssignmentStatus
  | assigned
  | accepted
  | declined
  | completed
  | no_show
  | interested
deriving DecidableEq

/-- `agent_profiles.availability_status`. -/
inductive Availability
  | available
  | busy
  | offline
deriving DecidableEq

/-- `fleet_vehicles.status` CHECK constraint. -/
inductive VehicleStatus
  | available
  | assigned
  | maintenance
  | retired
deriving DecidableEq

/-- `compliance_records.status` CHECK constraint (same value set as
`agent_profiles.background_check_status`). -/
inductive CompStatus
  | pending
  | approved
  | rejected
  | expired
deriving DecidableEq

/-- `compliance_records.record_type` CHECK constraint. -/
inductive RecordType
  | background_check
  | drug_test
  | training
  | certification
deriving DecidableEq

/-- `payments.status` CHECK constraint. -/
inductive PayStatus
  | pending
  | processing
  | completed
  | failed
  | refunded
deriving DecidableEq

/-- Outward response classes of the route handlers: 200/201, 400, 403,
404, 500. -/
inductive Resp
  | ok
  | created
  | badRequest
  | forbidden
  | notFound
  | serverError
deriving DecidableEq

/-- A `users` row (columns used by the verified routes). -/
structure User where
  id : Nat
  user_type : Role
  is_active : Bool
deriving DecidableEq

/-- An `agent_profiles` row.  `hourly_rate` is not declared in the
`database.js` DDL but is written by the profile-update route and read by
the matching queries, so it is embedded as a nullable column. -/
structure AgentProfile where
  user_id : Nat
  certifications : Option (List String)
  experience_years : Int
  availability_status : Availability
  location_lat : Option Rat
  location_lng : Option Rat
  background_check_status : CompStatus
  rating : Rat
  hourly_rate : Option Rat
deriving DecidableEq

/-- A `jobs` row. -/
structure Job where
  id : Nat
  client_id : Nat
  ppo_id : Option Nat
  location_lat : Option Rat
  location_lng : Option Rat
  start_date : Int
  end_date : Int
  hourly_rate : Rat
  agents_needed : Nat
  required_certifications : Option (List String)
  urgency_level : Urgency
  status : JobStatus
deriving DecidableEq

/-- A `job_assignments` row.  `hourly_rate` is embedded as an `Option`
so that an `INSERT` that omits it (the column has no default) produces a
`NULL` that the `NOT NULL` constraint then rejects. -/
structure JobAssignment where
  id : Nat
  job_id : Nat
  agent_id : Nat
  hourly_rate : Option Rat
  status : AssignmentStatus
deriving DecidableEq

/-- A `fleet_vehicles` row (columns relevant to the fleet invariant). -/
structure FleetVehicle where
  id : Nat
  ppo_id : Nat
  status : VehicleStatus
deriving DecidableEq

/-- A `vehicle_assignments` row; the assignment is open iff
`returned_at` is `none`. -/
structure VehicleAssignment where
  id : Nat
  vehicle_id : Nat
  job_id : Nat
  agent_id : Nat
  returned_at : Option Int
deriving DecidableEq

/-- A `compliance_records` row. -/
structure ComplianceRecord where
  id : Nat
  user_id : Nat
  record_type : RecordType
  status : CompStatus
  notes : Option String
deriving DecidableEq

/-- A `payments` row (columns used by the webhook handler). -/
structure Payment where
  id : Nat
  job_id : Option Nat
  stripe_payment_intent_id : Option String
  status : PayStatus
deriving DecidableEq

/-- The relational store: one list of rows per table, in insertion
order. -/
structure DB where
  users : List User
  agent_profiles : List AgentProfile
  jobs : List Job
  job_assignments : List JobAssignment
  payments : List Payment
  fleet_vehicles : List FleetVehicle
  vehicle_assignments : List VehicleAssignment
  compliance_records : List ComplianceRecord
deriving DecidableEq

/-! ## Compatibility scorer, find-jobs-for-agent direction
(`GET /matching/jobs`, `src/routes/matching.js` lines 22-129).

The great-circle distance is a transcendental computation performed by
the SQL `acos`/`cos`/`sin` calls; it enters the score only when the job
has both coordinates, so the scorer is parameterised by an arbitrary
distance oracle `haversine : lat → lng → km` measured from the query
point. -/

/-- Distance component of the jobs-direction score: the SQL `CASE` on
`j.location_lat`/`j.location_lng` contributing `50 - LEAST(50, dist)`
when both are present and `0` otherwise. -/
def distanceScoreForJob (haversine : Rat → Rat → Rat) (j : Job) : Rat :=
  match j.location_lat, j.location_lng with
  | some la, some ln => 50 - min 50 (haversine la ln)
  | _, _ => 0

/-- Rate component of the jobs-direction score: `j.hourly_rate >= $4`
→ 30, `>= $4*0.8` → 20, `>= $4*0.6` → 10, else 0, with `$4` the agent's
hourly rate (defaulted to 0 when absent). -/
def rateScoreForAgent (jobRate agentRate : Rat) : Rat :=
  if jobRate ≥ agentRate then 30
  else if jobRate ≥ agentRate * 0.8 then 20
  else if jobRate ≥ agentRate * 0.6 then 10
  else 0

/-- Certification component: `NULL` or empty required set → 20 flat;
array overlap (`&&`) with the agent's certifications → 40; else 0. -/
def certScoreForAgent (required : Option (List String)) (agentCerts : List String) : Rat :=
  match required with
  | none => 20
  | some [] => 20
  | some l => if l.any (fun c => agentCerts.contains c) then 40 else 0

/-- Urgency component (`CASE j.urgency_level`). -/
def urgencyScore : Urgency → Rat
  | .urgent => 20
  | .high => 15
  | .normal => 10
  | .low => 5

/-- Experience component (`$6` is `agent.experience_years || 0`). -/
def experienceScore (y : Int) : Rat :=
  if y ≥ 5 then 15
  else if y ≥ 2 then 10
  else if y ≥ 1 then 5
  else 0

/-- The `match_score` SQL expression of `GET /matching/jobs`: base 100
plus the distance, rate, certification, urgency and experience
components. -/
def jobMatchScore (haversine : Rat → Rat → Rat) (agentRate : Rat)
    (agentCerts : List String) (agentExp : Int) (j : Job) : Rat :=
  100 + distanceScoreForJob haversine j
      + rateScoreForAgent j.hourly_rate agentRate
      + certScoreForAgent j.required_certifications agentCerts
      + urgencyScore j.urgency_level
      + experienceScore agentExp

/-- The `jobsWithReasons` post-processing of `GET /matching/jobs`
(lines 105-129): reason tags derived from the returned row, the raw
agent profile, and the optional query coordinates.  A `some []`
certification list is non-null (hence truthy in the source) but has no
overlapping element, so it contributes no tag. -/
def jobMatchReasons (score : Rat) (agent : AgentProfile)
    (queryLat queryLng : Option Rat) (distKm : Rat → Rat → Rat) (j : Job) :
    List String :=
  (if score ≥ 150 then ["High overall match"] else []) ++
  (if j.hourly_rate ≥ agent.hourly_rate.getD 0 then ["Good pay rate"] else []) ++
  (match j.required_certifications, agent.certifications with
   | some req, some certs =>
       if req.any (fun c => certs.contains c) then ["Certification match"] else []
   | _, _ => []) ++
  (if j.urgency_level = .urgent then ["Urgent job"] else []) ++
  (match queryLat, queryLng, j.location_lat, j.location_lng with
   | some _, some _, some jla, some jln =>
       let d := distKm jla jln
       if d ≤ 10 then ["Very close location"]
       else if d ≤ 25 then ["Close location"]
       else []
   | _, _, _, _ => [])

/-! ## Candidate-pool exclusion and availability filters
(`GET /matching/agents/:jobId` lines 218-229 and `GET /matching/jobs`
lines 76-78 of `src/routes/matching.js`). -/

/-- The `NOT IN` exclusion of the find-agents direction: agent `agentId`
is dropped from the candidate pool of job `jobId` iff some
`job_assignments` row links the pair with a status outside
`('declined', 'no_show')`. -/
def excludedFromAgentsPool (db : DB) (jobId agentId : Nat) : Bool :=
  db.job_assignments.any fun ja =>
    decide (ja.job_id = jobId) && decide (ja.agent_id = agentId) &&
      !(decide (ja.status = .declined) || decide (ja.status = .no_show))

/-- The `NOT IN` exclusion of the find-jobs direction: job `jobId` is
dropped from agent `agentId`'s candidate pool iff some row links the
pair — the subquery carries no status filter. -/
def excludedFromJobsPool (db : DB) (agentId jobId : Nat) : Bool :=
  db.job_assignments.any fun ja =>
    decide (ja.agent_id = agentId) && decide (ja.job_id = jobId)

/-- The `NOT EXISTS` availability subquery of the find-agents direction:
there is a conflict iff the agent holds an `assigned` or `accepted`
assignment on a job whose window satisfies
`j2.start_date < $7 AND j2.end_date > $6` against the target window
`[$6, $7)`. -/
def hasScheduleConflict (db : DB) (agentId : Nat) (tStart tEnd : Int) : Bool :=
  db.job_assignments.any fun ja2 =>
    decide (ja2.agent_id = agentId) &&
    (decide (ja2.status = .assigned) || decide (ja2.status = .accepted)) &&
    db.jobs.any fun j2 =>
      decide (j2.id = ja2.job_id) &&
      decide (j2.start_date < tEnd) && decide (j2.end_date > tStart)

/-- Database for the C3 counterexample: agent 2 has a single, `declined`
assignment on job 1. -/
def c3db : DB :=
  { users := [], agent_profiles := [], jobs := [], payments := []
    fleet_vehicles := [], vehicle_assignments := [], compliance_records := []
    job_assignments :=
      [{ id := 1, job_id := 1, agent_id := 2, hourly_rate := some 35, status := .declined }] }

/-- Database for the C2 witness: jobs X `[10,14)`, Y `[13,15)`,
Z `[14,16)`; agent 5 has an `accepted` assignment on X. -/
def c2db : DB :=
  { users := [], agent_profiles := [], payments := []
    fleet_vehicles := [], vehicle_assignments := [], compliance_records := []
    jobs :=
      [{ id := 1, client_id := 1, ppo_id := none, location_lat := none, location_lng := none
         start_date := 10, end_date := 14, hourly_rate := 50, agents_needed := 1
         required_certifications := none, urgency_level := .normal, status := .open_ },
       { id := 2, client_id := 1, ppo_id := none, location_lat := none, location_lng := none
         start_date := 13, end_date := 15, hourly_rate := 50, agents_needed := 1
         required_certifications := none, urgency_level := .normal, status := .open_ },
       { id := 3, client_id := 1, ppo_id := none, location_lat := none, location_lng := none
         start_date := 14, end_date := 16, hourly_rate := 50, agents_needed := 1
         required_certifications := none, urgency_level := .normal, status := .open_ }]
    job_assignments :=
      [{ id := 1, job_id := 1, agent_id := 5, hourly_rate := some 50, status := .accepted }] }

/-- The target job Y = `[13,15)` of the C2 witness. -/
def c2JobY : Job :=
  { id := 2, client_id := 1, ppo_id := none, location_lat := none, location_lng := none
    start_date := 13, end_date := 15, hourly_rate := 50, agents_needed := 1
    required_certifications := none, urgency_level := .normal, status := .open_ }

/-- The target job Z = `[14,16)` of the C2 witness. -/
def c2JobZ : Job :=
  { id := 3, client_id := 1, ppo_id := none, location_lat := none, location_lng := none
    start_date := 14, end_date := 16, hourly_rate := 50, agents_needed := 1
    required_certifications := none, urgency_level := .normal, status := .open_ }

/-! ## POST /jobs/:id/assign-ppo (`src/routes/jobs.js` lines 138-171). -/

/-- `POST /jobs/:id/assign-ppo`: looks the job up by `(id, client_id)`
(404 when absent), then the target user by `(id, user_type = 'ppo')`
(404 when absent), then unconditionally sets `ppo_id` and
`status = 'assigned'`.  The handler never inspects the job's current
status. -/
def assignPpo (db : DB) (callerId jobId ppoId : Nat) : Resp × DB :=
  if db.jobs.any fun j => decide (j.id = jobId) && decide (j.client_id = callerId) then
    if db.users.any fun u => decide (u.id = ppoId) && decide (u.user_type = Role.ppo) then
      (.ok, { db with jobs := db.jobs.map fun j =>
        if j.id = jobId then { j with ppo_id := some ppoId, status := .assigned } else j })
    else (.notFound, db)
  else (.notFound, db)

/-- Database for the C4 counterexample: client 5 owns job 1 which is
already `completed`; user 9 is a PPO. -/
def c4db : DB :=
  { users := [{ id := 9, user_type := .ppo, is_active := true }]
    agent_profiles := [], payments := [], fleet_vehicles := []
    vehicle_assignments := [], compliance_records := [], job_assignments := []
    jobs :=
      [{ id := 1, client_id := 5, ppo_id := none, location_lat := none, location_lng := none
         start_date := 0, end_date := 10, hourly_rate := 50, agents_needed := 1
         required_certifications := none, urgency_level := .normal, status := .completed }] }

/-! ## job_assignments constraints and POST /jobs/:id/assign-agents
(`src/routes/jobs.js` lines 173-227; DDL `src/config/database.js`
lines 104-118). -/

/-- The CHECK constraint on `job_assignments.status`: only the five
listed values are admitted — `'interested'` is not among them. -/
def jaStatusCheck (s : AssignmentStatus) : Bool :=
  decide (s = .assigned) || decide (s = .accepted) || decide (s = .declined) ||
    decide (s = .completed) || decide (s = .no_show)

/-- Row constraints of `job_assignments`: `hourly_rate` is `NOT NULL`
(and has no default), the status CHECK, and `UNIQUE (job_id, agent_id)`
against the existing rows. -/
def jaRowOk (rows : List JobAssignment) (row : JobAssignment) : Bool :=
  row.hourly_rate.isSome && jaStatusCheck row.status &&
    !(rows.any fun ja => decide (ja.job_id = row.job_id) && decide (ja.agent_id = row.agent_id))

/-- Next SERIAL key for `job_assignments`. -/
def jaNextId (rows : List JobAssignment) : Nat :=
  (rows.map JobAssignment.id).foldr max 0 + 1

/-- `INSERT INTO job_assignments (job_id, agent_id) VALUES ($1, $2)`:
the unset `status` column takes its default `'assigned'`, the unset
`hourly_rate` column has no default and becomes `NULL`; the proposed row
is checked against the table constraints — `none` on violation. -/
def insertJobAssignmentDefaults (db : DB) (jobId agentId : Nat) : Option DB :=
  let row : JobAssignment :=
    { id := jaNextId db.job_assignments, job_id := jobId, agent_id := agentId
      hourly_rate := none, status := .assigned }
  if jaRowOk db.job_assignments row then
    some { db with job_assignments := db.job_assignments ++ [row] }
  else none

/-- The `BEGIN`/`COMMIT` body of `POST /jobs/:id/assign-agents`: DELETE
every assignment row of the job, INSERT one default row per given
agent, set the job's status to `in_progress`.  `none` means a statement
failed and the whole transaction rolls back. -/
def assignAgentsTxn (db : DB) (jobId : Nat) (agentIds : List Nat) : Option DB :=
  (agentIds.foldl
    (fun acc aid => acc.bind fun d => insertJobAssignmentDefaults d jobId aid)
    (some { db with
      job_assignments := db.job_assignments.filter fun ja => !decide (ja.job_id = jobId) })).map
    fun d =>
      { d with jobs := d.jobs.map fun j =>
          if j.id = jobId then { j with status := .in_progress } else j }

/-- `POST /jobs/:id/assign-agents`: 400 on an empty agent list, 404 when
the job is not owned by the calling PPO, 400 when more agents than
`agents_needed`, otherwise the transaction runs — 500 and an unchanged
database when it rolls back. -/
def assignAgents (db : DB) (callerId jobId : Nat) (agentIds : List Nat) : Resp × DB :=
  if agentIds = [] then (.badRequest, db)
  else
    match db.jobs.find? fun j => decide (j.id = jobId) && decide (j.ppo_id = some callerId) with
    | none => (.notFound, db)
    | some job =>
      if agentIds.length > job.agents_needed then (.badRequest, db)
      else
        match assignAgentsTxn db jobId agentIds with
        | some db2 => (.ok, db2)
        | none => (.serverError, db)

/-- Database for the C5 scenario: PPO 7 owns job 1
(`agents_needed = 2`) with existing assignment rows for agents 3 and 4. -/
def c5db : DB :=
  { users := [], agent_profiles := [], payments := [], fleet_vehicles := []
    vehicle_assignments := [], compliance_records := []
    jobs :=
      [{ id := 1, client_id := 5, ppo_id := some 7, location_lat := none, location_lng := none
         start_date := 0, end_date := 10, hourly_rate := 50, agents_needed := 2
         required_certifications := none, urgency_level := .normal, status := .assigned }]
    job_assignments :=
      [{ id := 1, job_id := 1, agent_id := 3, hourly_rate := some 40, status := .assigned },
       { id := 2, job_id := 1, agent_id := 4, hourly_rate := some 40, status := .assigned }] }

/-! ## POST /compliance/records/bulk-update
(`src/unnamed/part_002` lines 186-234). -/

/-- `UPDATE compliance_records SET status = $1, notes = $2
WHERE id IN (...)`. -/
def updateComplianceRecords (db : DB) (ids : List Nat) (st : CompStatus)
    (notes : Option String) : DB :=
  { db with compliance_records := db.compliance_records.map fun r =>
      if r.id ∈ ids then { r with status := st, notes := notes } else r }

/-- `UPDATE agent_profiles SET background_check_status = $1
WHERE user_id = $2`. -/
def propagateBackgroundCheck (db : DB) (userId : Nat) (st : CompStatus) : DB :=
  { db with agent_profiles := db.agent_profiles.map fun ap =>
      if ap.user_id = userId then { ap with background_check_status := st } else ap }

/-- The statements of the bulk-update transaction in execution order:
the batched record update first, then one profile propagation per
affected `background_check` row (the rows delivered by `RETURNING *`,
whose id, type and owner are those of the matching snapshot rows). -/
def bulkUpdateSteps (db0 : DB) (ids : List Nat) (st : CompStatus)
    (notes : Option String) : List (DB → DB) :=
  (fun db => updateComplianceRecords db ids st notes) ::
    ((db0.compliance_records.filter fun r =>
        decide (r.id ∈ ids) && decide (r.record_type = RecordType.background_check)).map
      fun r => fun d => propagateBackgroundCheck d r.user_id st)

/-- `POST /compliance/records/bulk-update`, with an explicit failure
oracle: `failAt = some k` makes the `k`-th transaction statement fail,
upon which the `ROLLBACK` handler restores the snapshot and the route
answers 500.  The route first rejects an empty id list; the target
status is an enum value here, so the status validation always passes. -/
def bulkUpdateCompliance (db : DB) (ids : List Nat) (st : CompStatus)
    (notes : Option String) (failAt : Option Nat) : Resp × DB :=
  if ids = [] then (.badRequest, db)
  else
    match failAt with
    | some k =>
      if k < (bulkUpdateSteps db ids st notes).length then (.serverError, db)
      else (.ok, (bulkUpdateSteps db ids st notes).foldl (fun d f => f d) db)
    | none => (.ok, (bulkUpdateSteps db ids st notes).foldl (fun d f => f d) db)

/-- Database for the C6 witness: two pending `background_check` records
owned by agents 11 and 12, both profiles still `pending`. -/
def c6db : DB :=
  { users := [], jobs := [], job_assignments := [], payments := []
    fleet_vehicles := [], vehicle_assignments := []
    agent_profiles :=
      [{ user_id := 11, certifications := none, experience_years := 0
         availability_status := .available, location_lat := none, location_lng := none
         background_check_status := .pending, rating := 0, hourly_rate := none },
       { user_id := 12, certifications := none, experience_years := 0
         availability_status := .available, location_lat := none, location_lng := none
         background_check_status := .pending, rating := 0, hourly_rate := none }]
    compliance_records :=
      [{ id := 1, user_id := 11, record_type := .background_check, status := .pending, notes := none },
       { id := 2, user_id := 12, record_type := .background_check, status := .pending, notes := none }] }

/-! ## Fleet vehicles (`src/unnamed/part_004`): assign, return,
update, and the open-assignment invariant. -/

/-- The open (unreturned) `vehicle_assignments` rows of a vehicle. -/
def openAssignmentsFor (db : DB) (vid : Nat) : List VehicleAssignment :=
  db.vehicle_assignments.filter fun a =>
    decide (a.vehicle_id = vid) && decide (a.returned_at = none)

/-- The fleet invariant: every vehicle has at most one open assignment,
and its status is `assigned` iff an open assignment exists. -/
def FleetInv (db : DB) : Prop :=
  ∀ v ∈ db.fleet_vehicles,
    (openAssignmentsFor db v.id).length ≤ 1 ∧
    (v.status = VehicleStatus.assigned ↔ openAssignmentsFor db v.id ≠ [])

/-- Key well-formedness from the `SERIAL PRIMARY KEY` columns: vehicle
ids and vehicle-assignment ids are pairwise distinct. -/
def FleetWF (db : DB) : Prop :=
  (db.fleet_vehicles.map FleetVehicle.id).Nodup ∧
    (db.vehicle_assignments.map VehicleAssignment.id).Nodup

/-- Next SERIAL key for `vehicle_assignments`. -/
def vaNextId (rows : List VehicleAssignment) : Nat :=
  (rows.map VehicleAssignment.id).foldr max 0 + 1

/-- The pre-transaction checks of `POST /fleet/vehicles/:id/assign`
(lines 135-151): vehicle found by `(id, ppo_id, status='available')`
and job found by `(id, ppo_id)`.  Both run BEFORE the transaction
begins. -/
def assignVehicleCheck (db : DB) (callerId vid jobId : Nat) : Bool :=
  (db.fleet_vehicles.any fun v =>
    decide (v.id = vid) && decide (v.ppo_id = callerId) &&
      decide (v.status = VehicleStatus.available)) &&
  (db.jobs.any fun jb => decide (jb.id = jobId) && decide (jb.ppo_id = some callerId))

/-- The `BEGIN`/`COMMIT` body of the assign route: INSERT an open
assignment row, flip the vehicle's status to `assigned`
(lines 153-169), with no re-check inside the transaction. -/
def assignVehicleTxn (db : DB) (vid jobId agentId : Nat) : DB :=
  { db with
    vehicle_assignments := db.vehicle_assignments ++
      [{ id := vaNextId db.vehicle_assignments, vehicle_id := vid, job_id := jobId
         agent_id := agentId, returned_at := none }]
    fleet_vehicles := db.fleet_vehicles.map fun v =>
      if v.id = vid then { v with status := VehicleStatus.assigned } else v }

/-- `POST /fleet/vehicles/:id/assign`: checks, then transaction; the
failed check answers 404 (the route has no 409 Conflict response). -/
def assignVehicle (db : DB) (callerId vid jobId agentId : Nat) : Resp × DB :=
  if assignVehicleCheck db callerId vid jobId then
    (.ok, assignVehicleTxn db vid jobId agentId)
  else (.notFound, db)

/-- The open-assignment lookup of `POST /fleet/vehicles/:id/return`
(lines 188-202): a PPO caller joins on vehicle ownership, an agent
caller matches on `agent_id`. -/
def returnCandidates (db : DB) (callerId : Nat) (role : Role) (vid : Nat) :
    List VehicleAssignment :=
  match role with
  | Role.ppo => db.vehicle_assignments.filter fun a =>
      decide (a.vehicle_id = vid) && decide (a.returned_at = none) &&
        db.fleet_vehicles.any fun fv =>
          decide (fv.id = a.vehicle_id) && decide (fv.ppo_id = callerId)
  | _ => db.vehicle_assignments.filter fun a =>
      decide (a.vehicle_id = vid) && decide (a.agent_id = callerId) &&
        decide (a.returned_at = none)

/-- `POST /fleet/vehicles/:id/return`: 404 without a matching open
assignment, else atomically close `rows[0]` (set `returned_at`; the
mileage/fuel columns are not modeled) and flip the vehicle to
`available`. -/
def returnVehicle (db : DB) (callerId : Nat) (role : Role) (vid : Nat) (t : Int) : Resp × DB :=
  match (returnCandidates db callerId role vid).head? with
  | none => (.notFound, db)
  | some a0 =>
    (.ok, { db with
      vehicle_assignments := db.vehicle_assignments.map fun a =>
        if a.id = a0.id then { a with returned_at := some t } else a
      fleet_vehicles := db.fleet_vehicles.map fun v =>
        if v.id = vid then { v with status := VehicleStatus.available } else v })

/-- `PUT /fleet/vehicles/:id` (lines 90-124): ownership check, then
overwrite of the vehicle's columns — including `status` — with the
request values; the columns not modeled here cannot affect the
invariant. -/
def updateVehicle (db : DB) (callerId vid : Nat) (newStatus : VehicleStatus) : Resp × DB :=
  if db.fleet_vehicles.any fun v => decide (v.id = vid) && decide (v.ppo_id = callerId) then
    (.ok, { db with fleet_vehicles := db.fleet_vehicles.map fun v =>
      if v.id = vid then { v with status := newStatus } else v })
  else (.notFound, db)

/-- The C9 race schedule: both requests run their availability check
against the initial state (the checks live outside the transaction),
then both transactions run; each request reports success iff its check
passed. -/
def raceAssignVehicle (db : DB) (c1 v1 j1 a1 c2 v2 j2 a2 : Nat) : Resp × Resp × DB :=
  let ok1 := assignVehicleCheck db c1 v1 j1
  let ok2 := assignVehicleCheck db c2 v2 j2
  let db1 := if ok1 then assignVehicleTxn db v1 j1 a1 else db
  let db2 := if ok2 then assignVehicleTxn db1 v2 j2 a2 else db1
  ((if ok1 then Resp.ok else Resp.notFound), (if ok2 then Resp.ok else Resp.notFound), db2)

/-- Database for the C7 counterexample and C9 race: PPO 7 owns vehicle
1 and job 1. In `c7db` the vehicle is `assigned` with one open
assignment; in `c9db` it is `available` with none. -/
def c7db : DB :=
  { users := [], agent_profiles := [], payments := [], job_assignments := []
    compliance_records := []
    jobs :=
      [{ id := 1, client_id := 5, ppo_id := some 7, location_lat := none, location_lng := none
         start_date := 0, end_date := 10, hourly_rate := 50, agents_needed := 1
         required_certifications := none, urgency_level := .normal, status := .in_progress }]
    fleet_vehicles := [{ id := 1, ppo_id := 7, status := .assigned }]
    vehicle_assignments :=
      [{ id := 1, vehicle_id := 1, job_id := 1, agent_id := 3, returned_at := none }] }

/-- Initial state for the C9 race: same fleet, vehicle 1 `available`
with no assignment. -/
def c9db : DB :=
  { users := [], agent_profiles := [], payments := [], job_assignments := []
    compliance_records := []
    jobs :=
      [{ id := 1, client_id := 5, ppo_id := some 7, location_lat := none, location_lng := none
         start_date := 0, end_date := 10, hourly_rate := 50, agents_needed := 1
         required_certifications := none, urgency_level := .normal, status := .in_progress }]
    fleet_vehicles := [{ id := 1, ppo_id := 7, status := .available }]
    vehicle_assignments := [] }

/-! ## PUT /jobs/:id/status (`src/routes/jobs.js` lines 229-262) and
the `payment_intent.succeeded` webhook branch
(`src/routes/payments.js` lines 64-81). -/

/-- `UPDATE jobs SET status = $1 WHERE id = $2`. -/
def setJobStatus (db : DB) (jobId : Nat) (st : JobStatus) : DB :=
  { db with jobs := db.jobs.map fun j =>
      if j.id = jobId then { j with status := st } else j }

/-- `PUT /jobs/:id/status`: the request status is validated against the
five legal values (enforced here by the parameter type), a client
authorizes through `client_id`, a PPO through `ppo_id`, other roles get
403; the write then stores the requested status with no check of the
current one. -/
def updateJobStatus (db : DB) (callerId : Nat) (role : Role) (jobId : Nat)
    (newStatus : JobStatus) : Resp × DB :=
  match role with
  | Role.client =>
    if db.jobs.any fun j => decide (j.id = jobId) && decide (j.client_id = callerId) then
      (.ok, setJobStatus db jobId newStatus)
    else (.notFound, db)
  | Role.ppo =>
    if db.jobs.any fun j => decide (j.id = jobId) && decide (j.ppo_id = some callerId) then
      (.ok, setJobStatus db jobId newStatus)
    else (.notFound, db)
  | _ => (.forbidden, db)

/-- The `payment_intent.succeeded` webhook branch: mark the matching
payments completed; when the intent metadata carries a job id, run
`UPDATE jobs SET status = 'assigned' WHERE id = $2 AND status = 'open'`
(the two updates touch disjoint tables and are composed here in one
state). -/
def paymentIntentSucceeded (db : DB) (intentId : String) (jobIdMeta : Option Nat) : DB :=
  match jobIdMeta with
  | none =>
    { db with payments := db.payments.map fun p =>
        if p.stripe_payment_intent_id = some intentId then
          { p with status := PayStatus.completed } else p }
  | some jid =>
    { db with
      payments := db.payments.map fun p =>
        if p.stripe_payment_intent_id = some intentId then
          { p with status := PayStatus.completed } else p
      jobs := db.jobs.map fun j =>
        if decide (j.id = jid) && decide (j.status = JobStatus.open_) then
          { j with status := JobStatus.assigned } else j }

/-- Database for the C8 counterexample: client 5 owns the single,
`completed` job 1. -/
def c8db : DB :=
  { users := [], agent_profiles := [], payments := [], fleet_vehicles := []
    vehicle_assignments := [], compliance_records := [], job_assignments := []
    jobs :=
      [{ id := 1, client_id := 5, ppo_id := none, location_lat := none, location_lng := none
         start_date := 0, end_date := 10, hourly_rate := 50, agents_needed := 1
         required_certifications := none, urgency_level := .normal, status := .completed }] }

/-- The job row of `c8db` after the backwards move to `open`. -/
def c8JobUpdated : Job :=
  { id := 1, client_id := 5, ppo_id := none, location_lat := none, location_lng := none
    start_date := 0, end_date := 10, hourly_rate := 50, agents_needed := 1
    required_certifications := none, urgency_level := .normal, status := .open_ }

/-! ## POST /matching/preferences (`src/routes/matching.js`
lines 324-351). -/

/-- `POST /matching/preferences`.  For `interested = true` the route
runs `INSERT INTO job_assignments (job_id, agent_id, status)
VALUES ($1, $2, 'interested') ON CONFLICT (job_id, agent_id) DO UPDATE
SET status = 'interested'`: the proposed row omits `hourly_rate`
(`NULL`, no default) and carries a status outside the CHECK set, and
PostgreSQL checks both constraints on the proposed row before any
conflict arbitration, while a conflicting `DO UPDATE` row is checked
again.  For `interested = false` the route deletes the pair's row only
when its status is `'interested'`. -/
def savePreference (db : DB) (agentId jobId : Nat) (interested : Bool) : Resp × DB :=
  if interested then
    if ({ id := jaNextId db.job_assignments, job_id := jobId, agent_id := agentId
          hourly_rate := none, status := AssignmentStatus.interested } :
            JobAssignment).hourly_rate.isSome
        && jaStatusCheck AssignmentStatus.interested then
      if db.job_assignments.any fun ja =>
          decide (ja.job_id = jobId) && decide (ja.agent_id = agentId) then
        if jaStatusCheck AssignmentStatus.interested then
          (.ok, { db with job_assignments := db.job_assignments.map fun ja =>
            if (decide (ja.job_id = jobId) && decide (ja.agent_id = agentId)) = true then
              { ja with status := AssignmentStatus.interested } else ja })
        else (.serverError, db)
      else
        (.ok, { db with job_assignments := db.job_assignments ++
          [{ id := jaNextId db.job_assignments, job_id := jobId, agent_id := agentId
             hourly_rate := none, status := AssignmentStatus.interested }] })
    else (.serverError, db)
  else
    (.ok, { db with job_assignments := db.job_assignments.filter fun ja =>
      !(decide (ja.job_id = jobId) && decide (ja.agent_id = agentId) &&
        decide (ja.status = AssignmentStatus.interested)) })

/-- Database for the C10 evaluation: agent 2 holds an `accepted`
assignment on job 1. -/
def c10db : DB :=
  { users := [], agent_profiles := [], jobs := [], payments := []
    fleet_vehicles := [], vehicle_assignments := [], compliance_records := []
    job_assignments :=
      [{ id := 1, job_id := 1, agent_id := 2, hourly_rate := some 40, status := .accepted }] }

instance instDecFleetInv (db : DB) : Decidable (FleetInv db) := by
  unfold FleetInv
  infer_instance

instance instDecFleetWF (db : DB) : Decidable (FleetWF db) := by
  unfold FleetWF
  infer_instance

/-- The C1 scenario job: rate 150, required certifications `["CPR"]`,
urgency `urgent`, no coordinates, a 4-hour window. -/
def c1Job : Job :=
  { id := 1, client_id := 1, ppo_id := none
    location_lat := none, location_lng := none
    start_date := 0, end_date := 14400
    hourly_rate := 150, agents_needed := 1
    required_certifications := some ["CPR"]
    urgency_level := .urgent, status := .open_ }

/-- The C1 scenario agent: rate 140, certifications
`["CPR", "Security License"]`, 6 years of experience, rating 4.6,
available. -/
def c1Agent : AgentProfile :=
  { user_id := 2
    certifications := some ["CPR", "Security License"]
    experience_years := 6
    availability_status := .available
    location_lat := none, location_lng := none
    background_check_status := .approved
    rating := 4.6
    hourly_rate := some 140 }

end StaffShield

namespace StaffShield

/-- C1: in the find-jobs-for-agent direction, the C1 scenario job scored
for the C1 scenario agent gets compatibility score 205
(100 base + 0 distance + 30 rate + 40 certifications + 20 urgency +
15 experience), and the derived reason list contains
"High overall match", "Certification match" and "Urgent job" — for
every distance oracle, since the job carries no coordinates. -/
theorem c1_score_205_and_reasons (haversine distKm : Rat → Rat → Rat) :
    jobMatchScore haversine (c1Agent.hourly_rate.getD 0)
        (c1Agent.certifications.getD []) c1Agent.experience_years c1Job = 205 ∧
    "High overall match" ∈ jobMatchReasons
        (jobMatchScore haversine (c1Agent.hourly_rate.getD 0)
          (c1Agent.certifications.getD []) c1Agent.experience_years c1Job)
        c1Agent none none distKm c1Job ∧
    "Certification match" ∈ jobMatchReasons
        (jobMatchScore haversine (c1Agent.hourly_rate.getD 0)
          (c1Agent.certifications.getD []) c1Agent.experience_years c1Job)
        c1Agent none none distKm c1Job ∧
    "Urgent job" ∈ jobMatchReasons
        (jobMatchScore haversine (c1Agent.hourly_rate.getD 0)
          (c1Agent.certifications.getD []) c1Agent.experience_years c1Job)
        c1Agent none none distKm c1Job := by
  have hs : jobMatchScore haversine (c1Agent.hourly_rate.getD 0)
      (c1Agent.certifications.getD []) c1Agent.experience_years c1Job = 205 := by
    simp only [c1Agent, c1Job, jobMatchScore, distanceScoreForJob, rateScoreForAgent,
      certScoreForAgent, urgencyScore, experienceScore, Option.getD]
    norm_num
  have hr : jobMatchReasons (205 : Rat) c1Agent none none distKm c1Job =
      ["High overall match", "Good pay rate", "Certification match", "Urgent job"] := by
    simp only [c1Agent, jobMatchReasons, c1Job, Option.getD]
    norm_num
  refine ⟨hs, ?_, ?_, ?_⟩ <;> rw [hs, hr] <;> decide

/-- C2: for a candidate agent (one that passed the pool exclusion of the
find-agents direction, hence holds no live assignment on the target job
itself), the availability filter admits the agent iff no `assigned` or
`accepted` assignment of theirs sits on another job whose window
satisfies `other.start < target.end ∧ other.end > target.start` —
half-open overlap, touching endpoints excluded. -/
theorem c2_availability_filter_iff (db : DB) (agentId : Nat) (target : Job)
    (hcand : excludedFromAgentsPool db target.id agentId = false) :
    hasScheduleConflict db agentId target.start_date target.end_date = false ↔
      ¬ ∃ ja ∈ db.job_assignments, ja.agent_id = agentId ∧
          (ja.status = .assigned ∨ ja.status = .accepted) ∧
          ∃ j2 ∈ db.jobs, j2.id = ja.job_id ∧ j2.id ≠ target.id ∧
            j2.start_date < target.end_date ∧ j2.end_date > target.start_date := by
  constructor
  · intro hfalse hex
    rcases hex with ⟨ja, hja, hag, hst, j2, hj2, hid, _hne, hs, he⟩
    have htrue : hasScheduleConflict db agentId target.start_date target.end_date = true := by
      unfold hasScheduleConflict
      refine List.any_eq_true.mpr ⟨ja, hja, ?_⟩
      have hb2 : (db.jobs.any fun j2 =>
          decide (j2.id = ja.job_id) && decide (j2.start_date < target.end_date) &&
            decide (j2.end_date > target.start_date)) = true :=
        List.any_eq_true.mpr ⟨j2, hj2, by simp [hid, hs, he]⟩
      have hsb : (decide (ja.status = AssignmentStatus.assigned) ||
          decide (ja.status = AssignmentStatus.accepted)) = true := by
        rcases hst with h | h <;> rw [h] <;> rfl
      simp [hag, hsb, hb2]
    rw [hfalse] at htrue
    exact Bool.noConfusion htrue
  · intro hnex
    cases hconf : hasScheduleConflict db agentId target.start_date target.end_date with
    | false => rfl
    | true =>
      exfalso
      unfold hasScheduleConflict at hconf
      rcases List.any_eq_true.mp hconf with ⟨ja, hja, hf⟩
      simp only [Bool.and_eq_true, Bool.or_eq_true, decide_eq_true_eq] at hf
      rcases hf with ⟨⟨hag, hst⟩, hany⟩
      rcases List.any_eq_true.mp hany with ⟨j2, hj2, hfj⟩
      simp only [Bool.and_eq_true, decide_eq_true_eq] at hfj
      rcases hfj with ⟨⟨hid, hs⟩, he⟩
      by_cases hjid : ja.job_id = target.id
      · have hexcl : excludedFromAgentsPool db target.id agentId = true := by
          unfold excludedFromAgentsPool
          refine List.any_eq_true.mpr ⟨ja, hja, ?_⟩
          have hne : (decide (ja.status = AssignmentStatus.declined) ||
              decide (ja.status = AssignmentStatus.no_show)) = false := by
            rcases hst with h | h <;> rw [h] <;> rfl
          simp [hjid, hag, hne]
        rw [hcand] at hexcl
        exact Bool.noConfusion hexcl
      · exact hnex ⟨ja, hja, hag, hst, j2, hj2, hid, by rw [hid]; exact hjid, hs, he⟩

/-- C2 witness: the C2 theorem applied to the concrete database — agent
5 holds an `accepted` assignment on job X `[10,14)`; the filter excludes
the agent for target Y `[13,15)` (overlap) and admits for Z `[14,16)`
(touching endpoints only). -/
theorem c2_availability_filter_witness :
    hasScheduleConflict c2db 5 13 15 = true ∧ hasScheduleConflict c2db 5 14 16 = false := by
  refine ⟨?_, (c2_availability_filter_iff c2db 5 c2JobZ (by decide)).mpr (by decide)⟩
  by_contra hb
  have hb' : hasScheduleConflict c2db 5 13 15 = false := by
    cases h : hasScheduleConflict c2db 5 13 15
    · rfl
    · exact absurd h hb
  exact (c2_availability_filter_iff c2db 5 c2JobY (by decide)).mp hb' (by decide)

/-- C3 counterexample: agent 2's only assignment on job 1 is `declined`,
yet the find-jobs direction still excludes job 1 from the agent's pool —
its `NOT IN` subquery has no status filter, so the claimed
"iff status outside declined/no_show" fails there. -/
theorem c3_counterexample :
    excludedFromJobsPool c3db 2 1 = true ∧
    (c3db.job_assignments.all fun ja => decide (ja.status = .declined)) = true := by decide

/-- C3 amended: in the find-agents direction a candidate is excluded iff
a linking assignment with status outside `declined`/`no_show` exists; in
the find-jobs direction a candidate job is excluded iff ANY linking
assignment exists, regardless of status. -/
theorem c3_pool_exclusion_amended (db : DB) (jobId agentId : Nat) :
    (excludedFromAgentsPool db jobId agentId = true ↔
      ∃ ja ∈ db.job_assignments, ja.job_id = jobId ∧ ja.agent_id = agentId ∧
        ja.status ≠ .declined ∧ ja.status ≠ .no_show) ∧
    (excludedFromJobsPool db agentId jobId = true ↔
      ∃ ja ∈ db.job_assignments, ja.agent_id = agentId ∧ ja.job_id = jobId) := by
  constructor
  · simp only [excludedFromAgentsPool, List.any_eq_true, Bool.and_eq_true, Bool.not_eq_true',
      Bool.or_eq_false_iff, decide_eq_true_eq, decide_eq_false_iff_not]
    constructor
    · rintro ⟨ja, hja, ⟨hj, hag⟩, hd, hn⟩
      exact ⟨ja, hja, hj, hag, hd, hn⟩
    · rintro ⟨ja, hja, hj, hag, hd, hn⟩
      exact ⟨ja, hja, ⟨hj, hag⟩, hd, hn⟩
  · simp only [excludedFromJobsPool, List.any_eq_true, Bool.and_eq_true, decide_eq_true_eq]

/-- C4 counterexample: the assign-PPO operation succeeds on a job whose
status is `completed`, refuting "succeeds only when the job has status
literally 'open'" — the handler never checks the status. -/
theorem c4_counterexample :
    (c4db.jobs.all fun j => decide (j.status = JobStatus.completed)) = true ∧
    (assignPpo c4db 5 1 9).1 = Resp.ok ∧
    ((assignPpo c4db 5 1 9).2.jobs.all fun j =>
      decide (j.status = JobStatus.assigned) && decide (j.ppo_id = some 9)) = true := by
  decide

/-- C4 amended: assign-PPO succeeds iff the job exists and is owned by
the caller AND the target user has role ppo — with no condition on the
job's status; on success every row of the job gets `ppo_id` and status
`assigned`; on failure the response is NotFound and the database is
unchanged. -/
theorem c4_assign_ppo_amended (db : DB) (callerId jobId ppoId : Nat) :
    ((assignPpo db callerId jobId ppoId).1 = Resp.ok ↔
      (∃ j ∈ db.jobs, j.id = jobId ∧ j.client_id = callerId) ∧
      (∃ u ∈ db.users, u.id = ppoId ∧ u.user_type = Role.ppo)) ∧
    ((assignPpo db callerId jobId ppoId).1 ≠ Resp.ok →
      (assignPpo db callerId jobId ppoId).1 = Resp.notFound ∧
      (assignPpo db callerId jobId ppoId).2 = db) ∧
    ((assignPpo db callerId jobId ppoId).1 = Resp.ok →
      ∀ j ∈ (assignPpo db callerId jobId ppoId).2.jobs, j.id = jobId →
        j.ppo_id = some ppoId ∧ j.status = JobStatus.assigned) := by
  have hjiff : (db.jobs.any fun j =>
      decide (j.id = jobId) && decide (j.client_id = callerId)) = true ↔
      ∃ j ∈ db.jobs, j.id = jobId ∧ j.client_id = callerId := by
    simp [List.any_eq_true]
  have huiff : (db.users.any fun u =>
      decide (u.id = ppoId) && decide (u.user_type = Role.ppo)) = true ↔
      ∃ u ∈ db.users, u.id = ppoId ∧ u.user_type = Role.ppo := by
    simp [List.any_eq_true]
  by_cases h1 : (db.jobs.any fun j =>
      decide (j.id = jobId) && decide (j.client_id = callerId)) = true
  · by_cases h2 : (db.users.any fun u =>
        decide (u.id = ppoId) && decide (u.user_type = Role.ppo)) = true
    · have hres : assignPpo db callerId jobId ppoId =
          (.ok, { db with jobs := db.jobs.map fun j =>
            if j.id = jobId then { j with ppo_id := some ppoId, status := .assigned }
            else j }) := by
        simp [assignPpo, h1, h2]
      refine ⟨?_, ?_, ?_⟩
      · rw [hres]
        exact iff_of_true rfl ⟨hjiff.mp h1, huiff.mp h2⟩
      · intro hne
        exfalso
        exact hne (by rw [hres])
      · intro _ j hjmem hid
        rw [hres] at hjmem
        rcases List.mem_map.mp hjmem with ⟨a, _, hfa⟩
        by_cases hida : a.id = jobId
        · rw [if_pos hida] at hfa
          rw [← hfa]
          exact ⟨rfl, rfl⟩
        · rw [if_neg hida] at hfa
          rw [← hfa] at hid
          exact absurd hid hida
    · have hres : assignPpo db callerId jobId ppoId = (.notFound, db) := by
        simp [assignPpo, h1, h2]
      refine ⟨?_, ?_, ?_⟩
      · rw [hres]
        refine iff_of_false (by simp) ?_
        rintro ⟨_, hB⟩
        exact h2 (huiff.mpr hB)
      · intro _
        rw [hres]
        exact ⟨rfl, rfl⟩
      · intro hok
        rw [hres] at hok
        simp at hok
  · have hres : assignPpo db callerId jobId ppoId = (.notFound, db) := by
      simp [assignPpo, h1]
    refine ⟨?_, ?_, ?_⟩
    · rw [hres]
      refine iff_of_false (by simp) ?_
      rintro ⟨hA, _⟩
      exact h1 (hjiff.mpr hA)
    · intro _
      rw [hres]
      exact ⟨rfl, rfl⟩
    · intro hok
      rw [hres] at hok
      simp at hok

/-- C4 witness: the amended theorem applied concretely — success on the
owned job of `c4db`, and an unchanged database for a caller who does not
own it. -/
theorem c4_assign_ppo_witness :
    (assignPpo c4db 5 1 9).1 = Resp.ok ∧ (assignPpo c4db 99 1 9).2 = c4db := by
  constructor
  · exact (c4_assign_ppo_amended c4db 5 1 9).1.mpr (by decide)
  · exact ((c4_assign_ppo_amended c4db 99 1 9).2.1 (by decide)).2

/-- Helper: once an insert in the agent loop has failed, the remaining
folded inserts keep the accumulator at `none`. -/
theorem jaInsertFoldl_none (jobId : Nat) (t : List Nat) :
    t.foldl (fun acc aid => acc.bind fun d => insertJobAssignmentDefaults d jobId aid)
      none = none := by
  induction t with
  | nil => rfl
  | cons b t ih =>
    rw [List.foldl_cons]
    exact ih

/-- C5 (code bug): the agent-loop `INSERT` omits `hourly_rate`, a
`NOT NULL` column without default, so the first insert of the
transaction fails and the whole operation rolls back: for every input
the database is returned unchanged and the response is never a success;
in particular, re-assigning `[5]` on a job holding rows for agents 3 and
4 answers 500 and leaves both old rows in place, where the claim
promises a destructive replace by a single row for agent 5. -/
theorem c5_assign_agents_insert_bug :
    (∀ (db : DB) (callerId jobId : Nat) (agentIds : List Nat),
      (assignAgents db callerId jobId agentIds).2 = db ∧
      ((assignAgents db callerId jobId agentIds).1 = Resp.badRequest ∨
       (assignAgents db callerId jobId agentIds).1 = Resp.notFound ∨
       (assignAgents db callerId jobId agentIds).1 = Resp.serverError)) ∧
    assignAgents c5db 7 1 [5] = (Resp.serverError, c5db) := by
  have hmain : ∀ (db : DB) (callerId jobId : Nat) (agentIds : List Nat),
      (assignAgents db callerId jobId agentIds).2 = db ∧
      ((assignAgents db callerId jobId agentIds).1 = Resp.badRequest ∨
       (assignAgents db callerId jobId agentIds).1 = Resp.notFound ∨
       (assignAgents db callerId jobId agentIds).1 = Resp.serverError) := by
    intro db c j l
    unfold assignAgents
    by_cases hemp : l = []
    · rw [if_pos hemp]
      exact ⟨rfl, Or.inl rfl⟩
    · rw [if_neg hemp]
      have htxn : assignAgentsTxn db j l = none := by
        cases l with
        | nil => exact absurd rfl hemp
        | cons a t =>
          unfold assignAgentsTxn
          rw [List.foldl_cons]
          have hstep : (some { db with job_assignments :=
              db.job_assignments.filter fun ja => !decide (ja.job_id = j) }).bind
              (fun d => insertJobAssignmentDefaults d j a) = none := rfl
          rw [hstep, jaInsertFoldl_none]
          rfl
      split
      · exact ⟨rfl, Or.inr (Or.inl rfl)⟩
      · next job _ =>
        by_cases hlen : l.length > job.agents_needed
        · rw [if_pos hlen]
          exact ⟨rfl, Or.inl rfl⟩
        · rw [if_neg hlen, htxn]
          exact ⟨rfl, Or.inr (Or.inr rfl)⟩
  exact ⟨hmain, by decide⟩

/-- Helper: profile propagations never touch `compliance_records`. -/
theorem foldl_props_records (st : CompStatus) (rs : List ComplianceRecord) (d : DB) :
    (((rs.map fun r => fun d => propagateBackgroundCheck d r.user_id st).foldl
      (fun d f => f d) d)).compliance_records = d.compliance_records := by
  induction rs generalizing d with
  | nil => rfl
  | cons r t ih =>
    rw [List.map_cons, List.foldl_cons]
    exact ih _

/-- Helper: a propagation sets the owner's background-check status. -/
theorem propagate_establishes (d : DB) (u : Nat) (st : CompStatus) :
    ∀ ap ∈ (propagateBackgroundCheck d u st).agent_profiles,
      ap.user_id = u → ap.background_check_status = st := by
  intro ap hap hu
  rcases List.mem_map.mp hap with ⟨a, _, hga⟩
  by_cases h : a.user_id = u
  · rw [if_pos h] at hga
    rw [← hga]
  · rw [if_neg h] at hga
    rw [← hga] at hu
    exact absurd hu h

/-- Helper: a propagation to the same target status preserves the
already-propagated status of any owner. -/
theorem propagate_preserves (d : DB) (u u0 : Nat) (st : CompStatus)
    (h : ∀ ap ∈ d.agent_profiles, ap.user_id = u0 → ap.background_check_status = st) :
    ∀ ap ∈ (propagateBackgroundCheck d u st).agent_profiles,
      ap.user_id = u0 → ap.background_check_status = st := by
  intro ap hap hu
  rcases List.mem_map.mp hap with ⟨a, ha, hga⟩
  by_cases hx : a.user_id = u
  · rw [if_pos hx] at hga
    rw [← hga]
  · rw [if_neg hx] at hga
    rw [← hga]
    exact h a ha (by rw [hga]; exact hu)

/-- Helper: folding propagations preserves an owner's propagated
status. -/
theorem foldl_props_preserve (st : CompStatus) (u0 : Nat) (rs : List ComplianceRecord) (d : DB)
    (h : ∀ ap ∈ d.agent_profiles, ap.user_id = u0 → ap.background_check_status = st) :
    ∀ ap ∈ ((rs.map fun r => fun d => propagateBackgroundCheck d r.user_id st).foldl
        (fun d f => f d) d).agent_profiles,
      ap.user_id = u0 → ap.background_check_status = st := by
  induction rs generalizing d with
  | nil => exact h
  | cons r t ih =>
    rw [List.map_cons, List.foldl_cons]
    exact ih _ (propagate_preserves _ _ _ _ h)

/-- Helper: if some listed record is owned by `u0`, folding the
propagations leaves `u0`'s profiles at the target status. -/
theorem foldl_props_establish (st : CompStatus) (u0 : Nat) (rs : List ComplianceRecord) (d : DB)
    (hmem : ∃ r ∈ rs, r.user_id = u0) :
    ∀ ap ∈ ((rs.map fun r => fun d => propagateBackgroundCheck d r.user_id st).foldl
        (fun d f => f d) d).agent_profiles,
      ap.user_id = u0 → ap.background_check_status = st := by
  revert hmem
  induction rs generalizing d with
  | nil =>
    intro hmem
    rcases hmem with ⟨r, hr, _⟩
    exact absurd hr (List.not_mem_nil r)
  | cons r t ih =>
    intro hmem
    rw [List.map_cons, List.foldl_cons]
    rcases hmem with ⟨r1, hr1, hu1⟩
    rcases List.mem_cons.mp hr1 with h | h
    · subst h
      have hbase : ∀ ap ∈ (propagateBackgroundCheck d r1.user_id st).agent_profiles,
          ap.user_id = u0 → ap.background_check_status = st :=
        fun ap hap hu => propagate_establishes d r1.user_id st ap hap (hu.trans hu1.symm)
      exact foldl_props_preserve st u0 t _ hbase
    · exact ih _ ⟨r1, h, hu1⟩

/-- C6: the compliance bulk update is atomic and propagating — on the
unfailed run every matching record carries the new status and every
agent owning an affected `background_check` record has the propagated
background-check status; a failure at any transaction step leaves the
whole database unchanged (500, snapshot restored). -/
theorem c6_bulk_update_atomic (db : DB) (ids : List Nat) (st : CompStatus)
    (notes : Option String) (hids : ids ≠ []) :
    (∀ r ∈ (bulkUpdateCompliance db ids st notes none).2.compliance_records,
        r.id ∈ ids → r.status = st) ∧
    (∀ r0 ∈ db.compliance_records, r0.id ∈ ids →
        r0.record_type = RecordType.background_check →
        ∀ ap ∈ (bulkUpdateCompliance db ids st notes none).2.agent_profiles,
          ap.user_id = r0.user_id → ap.background_check_status = st) ∧
    (∀ k : Nat, k < (bulkUpdateSteps db ids st notes).length →
        bulkUpdateCompliance db ids st notes (some k) = (Resp.serverError, db)) := by
  have hres2 : (bulkUpdateCompliance db ids st notes none).2 =
      (bulkUpdateSteps db ids st notes).foldl (fun d f => f d) db := by
    unfold bulkUpdateCompliance
    rw [if_neg hids]
  have hfold : (bulkUpdateSteps db ids st notes).foldl (fun d f => f d) db =
      ((db.compliance_records.filter fun r =>
          decide (r.id ∈ ids) && decide (r.record_type = RecordType.background_check)).map
        fun r => fun d => propagateBackgroundCheck d r.user_id st).foldl (fun d f => f d)
        (updateComplianceRecords db ids st notes) := by
    unfold bulkUpdateSteps
    rw [List.foldl_cons]
  refine ⟨?_, ?_, ?_⟩
  · intro r hr hid
    rw [hres2, hfold, foldl_props_records] at hr
    unfold updateComplianceRecords at hr
    rcases List.mem_map.mp hr with ⟨a, _, hfa⟩
    by_cases hin : a.id ∈ ids
    · rw [if_pos hin] at hfa
      rw [← hfa]
    · rw [if_neg hin] at hfa
      rw [← hfa] at hid
      exact absurd hid hin
  · intro r0 hr0 hid hbg ap hap hu
    rw [hres2, hfold] at hap
    have hr0f : r0 ∈ db.compliance_records.filter (fun r =>
        decide (r.id ∈ ids) && decide (r.record_type = RecordType.background_check)) :=
      List.mem_filter.mpr ⟨hr0, by simp [hid, hbg]⟩
    exact foldl_props_establish st r0.user_id _ _ ⟨r0, hr0f, rfl⟩ ap hap hu
  · intro k hk
    unfold bulkUpdateCompliance
    rw [if_neg hids]
    show (if k < (bulkUpdateSteps db ids st notes).length then (Resp.serverError, db)
      else (Resp.ok, (bulkUpdateSteps db ids st notes).foldl (fun d f => f d) db)) =
      (Resp.serverError, db)
    rw [if_pos hk]

/-- C6 witness: the atomicity theorem applied to the concrete two-record
batch — a failure injected at step 1 answers 500 with the database
unchanged. -/
theorem c6_witness :
    bulkUpdateCompliance c6db [1, 2] CompStatus.approved none (some 1) =
      (Resp.serverError, c6db) :=
  (c6_bulk_update_atomic c6db [1, 2] CompStatus.approved none (by decide)).2.2 1 (by decide)

/-- Helper: every member of a list of naturals is bounded by its
`foldr max 0`. -/
theorem le_foldr_max (l : List Nat) : ∀ x ∈ l, x ≤ l.foldr max 0 := by
  induction l with
  | nil =>
    intro x hx
    exact absurd hx (List.not_mem_nil x)
  | cons a t ih =>
    intro x hx
    rw [List.foldr_cons]
    rcases List.mem_cons.mp hx with h | h
    · rw [h]
      exact le_max_left _ _
    · exact le_trans (ih x h) (le_max_right _ _)

/-- Helper: the next SERIAL vehicle-assignment key is fresh. -/
theorem vaNextId_not_mem (rows : List VehicleAssignment) :
    vaNextId rows ∉ rows.map VehicleAssignment.id := by
  intro hmem
  have hle := le_foldr_max _ _ hmem
  unfold vaNextId at hle
  omega

/-- Helper: appending a fresh element keeps a list without
duplicates. -/
theorem nodup_append_fresh (l : List Nat) (x : Nat) (h : l.Nodup) (hx : x ∉ l) :
    (l ++ [x]).Nodup := by
  refine List.Nodup.append h (List.nodup_singleton x) ?_
  intro a ha hb
  rw [List.mem_singleton] at hb
  subst hb
  exact hx ha

/-- Helper: mapping an id-preserving function keeps the projected key
list without duplicates. -/
theorem nodup_map_map_of_id {α β : Type} (l : List α) (g : α → α) (f : α → β)
    (hg : ∀ a, f (g a) = f a) (h : (l.map f).Nodup) : ((l.map g).map f).Nodup := by
  rw [List.map_map]
  have hfg : f ∘ g = f := funext hg
  rw [hfg]
  exact h

/-- Helper: a pointwise-inert rewrite of rows does not change a
filter. -/
theorem filter_map_eq_self (p : VehicleAssignment → Bool)
    (h : VehicleAssignment → VehicleAssignment) (l : List VehicleAssignment)
    (H : ∀ a ∈ l, h a = a ∨ (p (h a) = false ∧ p a = false)) :
    (l.map h).filter p = l.filter p := by
  induction l with
  | nil => rfl
  | cons a t ih =>
    rw [List.map_cons, List.filter_cons, List.filter_cons]
    have Ht : ∀ x ∈ t, h x = x ∨ (p (h x) = false ∧ p x = false) :=
      fun x hx => H x (List.mem_cons_of_mem a hx)
    rcases H a (List.mem_cons_self a t) with hEq | ⟨hf1, hf2⟩
    · rw [hEq]
      cases hpa : p a
      · rw [if_neg (by simp), if_neg (by simp)]
        exact ih Ht
      · rw [if_pos rfl, if_pos rfl, ih Ht]
    · rw [if_neg (by simp [hf1]), if_neg (by simp [hf2])]
      exact ih Ht

/-- Helper: a list of length at most one containing `a` is `[a]`. -/
theorem eq_singleton_of_mem_of_length_le_one {α : Type} (l : List α) (a : α)
    (h1 : l.length ≤ 1) (h2 : a ∈ l) : l = [a] := by
  cases l with
  | nil => exact absurd h2 (List.not_mem_nil a)
  | cons x t =>
    cases t with
    | nil => rw [List.mem_singleton.mp h2]
    | cons y u =>
      exfalso
      rw [List.length_cons, List.length_cons] at h1
      omega

/-- Helper: `openAssignmentsFor` of an explicitly rebuilt state. -/
theorem open_mk (db : DB) (X : List VehicleAssignment) (Y : List FleetVehicle) (w : Nat) :
    openAssignmentsFor { db with vehicle_assignments := X, fleet_vehicles := Y } w =
      X.filter fun a => decide (a.vehicle_id = w) && decide (a.returned_at = none) := rfl

/-- Helper: `openAssignmentsFor` unfolded on the base state. -/
theorem open_db_eq (db : DB) (w : Nat) :
    openAssignmentsFor db w =
      db.vehicle_assignments.filter fun a =>
        decide (a.vehicle_id = w) && decide (a.returned_at = none) := rfl

/-- Helper: open assignments after the assign transaction — unchanged
for other vehicles, the fresh open row appended for the target. -/
theorem open_after_assignTxn (db : DB) (vid jobId agentId w : Nat) :
    openAssignmentsFor (assignVehicleTxn db vid jobId agentId) w =
      openAssignmentsFor db w ++
        (if vid = w then
          [({ id := vaNextId db.vehicle_assignments, vehicle_id := vid, job_id := jobId
              agent_id := agentId, returned_at := none } : VehicleAssignment)]
         else []) := by
  unfold assignVehicleTxn
  rw [open_mk, open_db_eq, List.filter_append]
  congr 1
  by_cases h : vid = w
  · rw [List.filter_cons]
    rw [if_pos (by simp [h]), if_pos h]
    rfl
  · rw [List.filter_cons]
    rw [if_neg (by simp [h]), if_neg h]
    rfl

/-- Helper: closing the unique open row of a vehicle empties its open
list. -/
theorem open_close_self (db : DB) (a0 : VehicleAssignment) (t : Int)
    (hsingle : openAssignmentsFor db a0.vehicle_id = [a0]) :
    ((db.vehicle_assignments.map fun a =>
        if a.id = a0.id then { a with returned_at := some t } else a).filter
      fun a => decide (a.vehicle_id = a0.vehicle_id) && decide (a.returned_at = none)) = [] := by
  rw [List.filter_eq_nil_iff]
  intro b hb hpb
  rcases List.mem_map.mp hb with ⟨a, ha, hba⟩
  by_cases hid : a.id = a0.id
  · rw [if_pos hid] at hba
    rw [← hba] at hpb
    simp at hpb
  · rw [if_neg hid] at hba
    subst hba
    have hmem : a ∈ openAssignmentsFor db a0.vehicle_id := by
      rw [open_db_eq]
      exact List.mem_filter.mpr ⟨ha, hpb⟩
    rw [hsingle, List.mem_singleton] at hmem
    exact hid (by rw [hmem])

/-- Helper: closing a row of a different vehicle leaves another
vehicle's open list unchanged (distinct row ids are needed so that no
unrelated row is rewritten). -/
theorem open_close_other (db : DB) (a0 : VehicleAssignment) (t : Int) (w : Nat)
    (hnd : (db.vehicle_assignments.map VehicleAssignment.id).Nodup)
    (ha0 : a0 ∈ db.vehicle_assignments) (hvid : a0.vehicle_id ≠ w) :
    ((db.vehicle_assignments.map fun a =>
        if a.id = a0.id then { a with returned_at := some t } else a).filter
      fun a => decide (a.vehicle_id = w) && decide (a.returned_at = none)) =
      openAssignmentsFor db w := by
  rw [open_db_eq]
  apply filter_map_eq_self
  intro a ha
  by_cases hid : a.id = a0.id
  · have haa0 : a = a0 := List.inj_on_of_nodup_map hnd ha ha0 hid
    right
    subst haa0
    rw [if_pos hid]
    constructor
    · simp [hvid]
    · simp [hvid]
  · left
    rw [if_neg hid]

/-- C7 counterexample: on a state satisfying the fleet invariant
(vehicle 1 `assigned` with one open assignment), the general
vehicle-update operation sets the status to `available` while the open
assignment remains, breaking the invariant — the route overwrites
`status` with the request value and never inspects open assignments. -/
theorem c7_counterexample :
    decide (FleetInv c7db) = true ∧ decide (FleetWF c7db) = true ∧
    (updateVehicle c7db 7 1 VehicleStatus.available).1 = Resp.ok ∧
    decide (FleetInv (updateVehicle c7db 7 1 VehicleStatus.available).2) = false := by
  decide

/-- C7 amended: on well-keyed states the vehicle-assign and
vehicle-return operations preserve the fleet invariant (at most one
open assignment per vehicle, status `assigned` iff one exists), but the
general vehicle-update operation does not. -/
theorem c7_fleet_invariant_amended (db : DB) (c vid jobId agentId : Nat) (role : Role) (t : Int)
    (hwf : FleetWF db) (hinv : FleetInv db) :
    (FleetInv (assignVehicle db c vid jobId agentId).2 ∧
      FleetWF (assignVehicle db c vid jobId agentId).2) ∧
    (FleetInv (returnVehicle db c role vid t).2 ∧
      FleetWF (returnVehicle db c role vid t).2) := by
  constructor
  · by_cases hchk : assignVehicleCheck db c vid jobId = true
    · have hst2 : (assignVehicle db c vid jobId agentId).2 =
          assignVehicleTxn db vid jobId agentId := by
        unfold assignVehicle
        rw [if_pos hchk]
      rw [hst2]
      have hchk' := hchk
      unfold assignVehicleCheck at hchk'
      rw [Bool.and_eq_true] at hchk'
      obtain ⟨h1, _⟩ := hchk'
      rcases List.any_eq_true.mp h1 with ⟨v0, hv0, hb⟩
      simp only [Bool.and_eq_true, decide_eq_true_eq] at hb
      obtain ⟨⟨_, _⟩, hv0st⟩ := hb
      rename_i hv0id _
      have hopen0 : openAssignmentsFor db vid = [] := by
        have h2 := (hinv v0 hv0).2
        have hne : ¬ v0.status = VehicleStatus.assigned := by
          rw [hv0st]
          intro hh
          exact VehicleStatus.noConfusion hh
        have h3 : ¬ openAssignmentsFor db v0.id ≠ [] := fun hcon => hne (h2.mpr hcon)
        rw [hv0id] at h3
        exact not_not.mp h3
      constructor
      · unfold FleetInv
        intro v' hv'
        have hveq : (assignVehicleTxn db vid jobId agentId).fleet_vehicles =
            db.fleet_vehicles.map fun v =>
              if v.id = vid then { v with status := VehicleStatus.assigned } else v := rfl
        rw [hveq] at hv'
        rcases List.mem_map.mp hv' with ⟨v, hv, hgv⟩
        by_cases hid : v.id = vid
        · rw [if_pos hid] at hgv
          have hv'id : v'.id = vid := by rw [← hgv]; exact hid
          rw [hv'id, open_after_assignTxn, hopen0, if_pos rfl]
          constructor
          · simp
          · constructor
            · intro _
              simp
            · intro _
              rw [← hgv]
        · rw [if_neg hid] at hgv
          rw [← hgv, open_after_assignTxn, if_neg (fun hh => hid hh.symm), List.append_nil]
          exact hinv v hv
      · unfold FleetWF
        constructor
        · have hveq : (assignVehicleTxn db vid jobId agentId).fleet_vehicles =
              db.fleet_vehicles.map fun v =>
                if v.id = vid then { v with status := VehicleStatus.assigned } else v := rfl
          rw [hveq]
          refine nodup_map_map_of_id _ _ _ ?_ hwf.1
          intro v
          by_cases h : v.id = vid
          · rw [if_pos h]
          · rw [if_neg h]
        · have haeq : (assignVehicleTxn db vid jobId agentId).vehicle_assignments =
              db.vehicle_assignments ++
                [{ id := vaNextId db.vehicle_assignments, vehicle_id := vid, job_id := jobId
                   agent_id := agentId, returned_at := none }] := rfl
          rw [haeq, List.map_append]
          exact nodup_append_fresh _ _ hwf.2 (vaNextId_not_mem _)
    · have hst2 : (assignVehicle db c vid jobId agentId).2 = db := by
        unfold assignVehicle
        rw [if_neg hchk]
      rw [hst2]
      exact ⟨hinv, hwf⟩
  · cases hcand : returnCandidates db c role vid with
    | nil =>
      have hres : (returnVehicle db c role vid t).2 = db := by
        unfold returnVehicle
        rw [hcand]
        rfl
      rw [hres]
      exact ⟨hinv, hwf⟩
    | cons a0 rest =>
      have ha0cand : a0 ∈ returnCandidates db c role vid := by
        rw [hcand]
        exact List.mem_cons_self a0 rest
      have hkey : a0 ∈ db.vehicle_assignments ∧ a0.vehicle_id = vid ∧ a0.returned_at = none := by
        cases role with
        | ppo =>
          rcases List.mem_filter.mp ha0cand with ⟨hmem, hp⟩
          simp only [Bool.and_eq_true, decide_eq_true_eq] at hp
          exact ⟨hmem, hp.1.1, hp.1.2⟩
        | agent =>
          rcases List.mem_filter.mp ha0cand with ⟨hmem, hp⟩
          simp only [Bool.and_eq_true, decide_eq_true_eq] at hp
          exact ⟨hmem, hp.1.1, hp.2⟩
        | client =>
          rcases List.mem_filter.mp ha0cand with ⟨hmem, hp⟩
          simp only [Bool.and_eq_true, decide_eq_true_eq] at hp
          exact ⟨hmem, hp.1.1, hp.2⟩
        | admin =>
          rcases List.mem_filter.mp ha0cand with ⟨hmem, hp⟩
          simp only [Bool.and_eq_true, decide_eq_true_eq] at hp
          exact ⟨hmem, hp.1.1, hp.2⟩
      obtain ⟨ha0rows, ha0vid, ha0ret⟩ := hkey
      have hres : (returnVehicle db c role vid t).2 = { db with
          vehicle_assignments := db.vehicle_assignments.map fun a =>
            if a.id = a0.id then { a with returned_at := some t } else a
          fleet_vehicles := db.fleet_vehicles.map fun v =>
            if v.id = vid then { v with status := VehicleStatus.available } else v } := by
        unfold returnVehicle
        rw [hcand]
        rfl
      have ha0open : a0 ∈ openAssignmentsFor db vid := by
        rw [open_db_eq]
        refine List.mem_filter.mpr ⟨ha0rows, ?_⟩
        simp [ha0vid, ha0ret]
      rw [hres]
      constructor
      · unfold FleetInv
        intro v' hv'
        rcases List.mem_map.mp hv' with ⟨v, hv, hgv⟩
        by_cases hid : v.id = vid
        · rw [if_pos hid] at hgv
          have hv'id : v'.id = vid := by rw [← hgv]; exact hid
          have hlen := (hinv v hv).1
          rw [hid] at hlen
          have hsingle : openAssignmentsFor db vid = [a0] :=
            eq_singleton_of_mem_of_length_le_one _ _ hlen ha0open
          have hopen' : openAssignmentsFor { db with
              vehicle_assignments := db.vehicle_assignments.map fun a =>
                if a.id = a0.id then { a with returned_at := some t } else a
              fleet_vehicles := db.fleet_vehicles.map fun v =>
                if v.id = vid then { v with status := VehicleStatus.available } else v }
              vid = [] := by
            rw [open_mk, ← ha0vid]
            exact open_close_self db a0 t (by rw [ha0vid]; exact hsingle)
          rw [hv'id, hopen']
          constructor
          · simp
          · constructor
            · intro hst
              rw [← hgv] at hst
              exact absurd hst (by simp)
            · intro hne'
              exact absurd rfl hne'
        · rw [if_neg hid] at hgv
          have hopen' : openAssignmentsFor { db with
              vehicle_assignments := db.vehicle_assignments.map fun a =>
                if a.id = a0.id then { a with returned_at := some t } else a
              fleet_vehicles := db.fleet_vehicles.map fun v =>
                if v.id = vid then { v with status := VehicleStatus.available } else v }
              v.id = openAssignmentsFor db v.id := by
            rw [open_mk]
            refine open_close_other db a0 t v.id hwf.2 ha0rows ?_
            rw [ha0vid]
            exact fun hh => hid hh.symm
          rw [← hgv, hopen']
          exact hinv v hv
      · unfold FleetWF
        constructor
        · refine nodup_map_map_of_id _ _ _ ?_ hwf.1
          intro v
          by_cases h : v.id = vid
          · rw [if_pos h]
          · rw [if_neg h]
        · refine nodup_map_map_of_id _ _ _ ?_ hwf.2
          intro a
          by_cases h : a.id = a0.id
          · rw [if_pos h]
          · rw [if_neg h]

/-- C7 witness: the preservation theorem applied concretely — assigning
the available vehicle of `c9db` and returning the assigned vehicle of
`c7db` both land in invariant-satisfying states. -/
theorem c7_fleet_witness :
    decide (FleetInv (assignVehicle c9db 7 1 1 3).2) = true ∧
    decide (FleetInv (returnVehicle c7db 7 Role.ppo 1 5).2) = true :=
  ⟨decide_eq_true
      ((c7_fleet_invariant_amended c9db 7 1 1 3 Role.ppo 5 (by decide) (by decide)).1).1,
   decide_eq_true
      ((c7_fleet_invariant_amended c7db 7 1 1 3 Role.ppo 5 (by decide) (by decide)).2).1⟩

/-- C9 (code bug): the availability check of the vehicle-assign route
runs before its transaction, so in the check-check-txn-txn schedule two
requests racing for the same available vehicle BOTH succeed, leaving two
open assignments on vehicle 1 and a broken fleet invariant; moreover
even the sequential second attempt fails with NotFound, not Conflict —
the route has no Conflict response at all. -/
theorem c9_race_both_succeed :
    decide (FleetInv c9db) = true ∧ decide (FleetWF c9db) = true ∧
    (raceAssignVehicle c9db 7 1 1 3 7 1 1 4).1 = Resp.ok ∧
    (raceAssignVehicle c9db 7 1 1 3 7 1 1 4).2.1 = Resp.ok ∧
    (openAssignmentsFor (raceAssignVehicle c9db 7 1 1 3 7 1 1 4).2.2 1).length = 2 ∧
    decide (FleetInv (raceAssignVehicle c9db 7 1 1 3 7 1 1 4).2.2) = false ∧
    (assignVehicle (assignVehicle c9db 7 1 1 3).2 7 1 1 4).1 = Resp.notFound := by
  decide

/-- C8 counterexample: the status route moves the `completed` job 1
back to `open` — it validates membership in the status set but never
compares against the current status, so backwards transitions are
accepted. -/
theorem c8_counterexample :
    (c8db.jobs.all fun j => decide (j.status = JobStatus.completed)) = true ∧
    (updateJobStatus c8db 5 Role.client 1 JobStatus.open_).1 = Resp.ok ∧
    ((updateJobStatus c8db 5 Role.client 1 JobStatus.open_).2.jobs.all fun j =>
      decide (j.status = JobStatus.open_)) = true := by
  decide

/-- Helper: a list is pointwise related to its image under a map. -/
theorem forall2_map_self {α : Type} (R : α → α → Prop) (f : α → α) (l : List α)
    (h : ∀ x ∈ l, R x (f x)) : List.Forall₂ R l (l.map f) := by
  induction l with
  | nil => exact List.Forall₂.nil
  | cons a t ih =>
    rw [List.map_cons]
    exact List.Forall₂.cons (h a (List.mem_cons_self a t))
      (ih fun x hx => h x (List.mem_cons_of_mem a hx))

/-- C8 amended: job statuses always stay inside the legal five-value
set, and the webhook transition is forward-only (it moves a job from
`open` to `assigned` or leaves it alone), but the status-update route
itself imposes no transition order: whenever its authorization passes
it stores the requested status over any current one, so backwards moves
such as `completed` back to `open` are accepted. -/
theorem c8_status_transitions_amended (db : DB) (callerId : Nat) (role : Role) (jobId : Nat)
    (ns : JobStatus) (intentId : String) (meta : Option Nat) :
    ((updateJobStatus db callerId role jobId ns).1 = Resp.ok →
      ∀ j ∈ (updateJobStatus db callerId role jobId ns).2.jobs, j.id = jobId → j.status = ns) ∧
    List.Forall₂ (fun j j' : Job => j'.id = j.id ∧
        (j'.status = j.status ∨ (j.status = JobStatus.open_ ∧ j'.status = JobStatus.assigned)))
      db.jobs (paymentIntentSucceeded db intentId meta).jobs := by
  constructor
  · intro hok j hj hid
    have hjobs : (updateJobStatus db callerId role jobId ns).2.jobs =
        db.jobs.map (fun j => if j.id = jobId then { j with status := ns } else j) ∨
        (updateJobStatus db callerId role jobId ns).1 ≠ Resp.ok := by
      unfold updateJobStatus
      cases role with
      | client =>
        by_cases ha : (db.jobs.any fun j =>
            decide (j.id = jobId) && decide (j.client_id = callerId)) = true
        · rw [if_pos ha]
          exact Or.inl rfl
        · rw [if_neg ha]
          exact Or.inr (by simp)
      | ppo =>
        by_cases ha : (db.jobs.any fun j =>
            decide (j.id = jobId) && decide (j.ppo_id = some callerId)) = true
        · rw [if_pos ha]
          exact Or.inl rfl
        · rw [if_neg ha]
          exact Or.inr (by simp)
      | agent => exact Or.inr (by simp)
      | admin => exact Or.inr (by simp)
    rcases hjobs with hmap | hne
    · rw [hmap] at hj
      rcases List.mem_map.mp hj with ⟨a, _, hfa⟩
      by_cases hida : a.id = jobId
      · rw [if_pos hida] at hfa
        rw [← hfa]
      · rw [if_neg hida] at hfa
        rw [← hfa] at hid
        exact absurd hid hida
    · exact absurd hok hne
  · cases meta with
    | none =>
      have : (paymentIntentSucceeded db intentId none).jobs = db.jobs := rfl
      rw [this]
      refine List.forall₂_same.mpr ?_
      intro j _
      exact ⟨rfl, Or.inl rfl⟩
    | some jid =>
      have : (paymentIntentSucceeded db intentId (some jid)).jobs =
          db.jobs.map fun j =>
            if decide (j.id = jid) && decide (j.status = JobStatus.open_) then
              { j with status := JobStatus.assigned } else j := rfl
      rw [this]
      refine forall2_map_self _ _ _ ?_
      intro j _
      by_cases hc : (decide (j.id = jid) && decide (j.status = JobStatus.open_)) = true
      · rw [if_pos hc]
        simp only [Bool.and_eq_true, decide_eq_true_eq] at hc
        exact ⟨rfl, Or.inr ⟨hc.2, rfl⟩⟩
      · rw [if_neg hc]
        exact ⟨rfl, Or.inl rfl⟩

/-- C8 witness: the amended theorem applied to the concrete backwards
move of `c8db` — the stored status is the requested `open`. -/
theorem c8_witness : c8JobUpdated.status = JobStatus.open_ :=
  (c8_status_transitions_amended c8db 5 Role.client 1 JobStatus.open_ "pi" none).1
    (by decide) c8JobUpdated (by decide) (by decide)

/-- C10 (code bug): the preference upsert writes status `'interested'`
without an `hourly_rate`, but the `job_assignments` CHECK constraint
admits only assigned/accepted/declined/completed/no_show and
`hourly_rate` is `NOT NULL` without default, so the statement always
fails: for every state and pair the route answers 500 and changes
nothing — also when the pair already has a formal `accepted` row, as in
the concrete state. -/
theorem c10_preferences_bug :
    (∀ (db : DB) (agentId jobId : Nat),
      savePreference db agentId jobId true = (Resp.serverError, db)) ∧
    savePreference c10db 2 1 true = (Resp.serverError, c10db) ∧
    (c10db.job_assignments.all fun ja =>
      decide (ja.status = AssignmentStatus.accepted)) = true := by
  refine ⟨?_, by decide, by decide⟩
  intro db a j
  rfl

end StaffShield
